import Mathlib

/-!
Shallow embedding of the Room State Engine of the `conduit-oidc` repository
(`src/events.rs`, `src/state.rs`, `src/room.rs`), together with theorems
checking the natural-language specification against it.

Modelling conventions:
* Rust `HashMap<K, V>` is modelled as an association list `List (K × V)`
  with key-unique insert / remove / lookup (`alistInsert`, `alistErase`,
  `alistGet`); `HashMap::len` is the list length (keys are unique by
  construction of the operations).
* Rust `u64` timestamps are `Nat` (only compared, never overflowed),
  `i32` power levels are `Int`.
* `serde_json::Value` payloads are opaque (`JsonValue`); no modelled code
  inspects them.
* Fallible Rust functions returning `Result<T, E>` become `Except E T`;
  `&mut self` methods on `RoomState` become `RoomState → … → Except E RoomState`.
* Sources of nondeterminism (UUIDs from `Uuid::new_v4`, wall-clock
  timestamps from `SystemTime::now`) are passed in explicitly: a `uuids :
  Nat → String` supply and a `now : Nat` timestamp.
* `Vec::sort_by_key` is a stable sort; it is modelled by a stable
  insertion sort (`insertionSortBy`), whose output coincides with any
  stable sort.
-/

/-- Association-list lookup, modelling `HashMap::get`. -/
def alistGet {K V : Type} [DecidableEq K] (k : K) : List (K × V) → Option V
  | [] => none
  | (k', v) :: rest => if k' = k then some v else alistGet k rest

/-- Association-list insert-or-replace, modelling `HashMap::insert`. -/
def alistInsert {K V : Type} [DecidableEq K] (k : K) (v : V) : List (K × V) → List (K × V)
  | [] => [(k, v)]
  | (k', v') :: rest => if k' = k then (k, v) :: rest else (k', v') :: alistInsert k v rest

/-- Association-list removal, modelling `HashMap::remove`. -/
def alistErase {K V : Type} [DecidableEq K] (k : K) : List (K × V) → List (K × V)
  | [] => []
  | (k', v') :: rest => if k' = k then alistErase k rest else (k', v') :: alistErase k rest

/-- Opaque stand-in for `serde_json::Value` (no modelled code inspects it). -/
structure JsonValue where
  val : String
deriving DecidableEq, Repr

/-- `events.rs`: `MembershipState`. -/
inductive MembershipState where
  | Join
  | Leave
  | Invite
  | Ban
  | Knock
deriving DecidableEq, Repr

/-- `events.rs`: `EventType`. -/
inductive EventType where
  | RoomMessage
  | RoomEncrypted
  | Reaction
  | RoomCreate
  | RoomMember
  | RoomPowerLevels
  | RoomJoinRules
  | RoomHistoryVisibility
  | RoomName
  | RoomTopic
  | RoomAvatar
  | CustomSupportRequest
  | CustomAlert
  | Custom (s : String)
deriving DecidableEq, Repr

/-- `events.rs`: `MessageType`. -/
inductive MessageType where
  | Text
  | Notice
  | Emote
  | Image
  | File
  | Video
  | Audio
  | Location
deriving DecidableEq, Repr

/-- `events.rs`: `InReplyTo`. -/
structure InReplyTo where
  event_id : String
deriving DecidableEq, Repr

/-- `events.rs`: `RelatesTo`. -/
structure RelatesTo where
  in_reply_to : Option InReplyTo
  rel_type : String
  event_id : String
deriving DecidableEq, Repr

/-- `events.rs`: `RoomMessageContent`. -/
structure RoomMessageContent where
  msgtype : MessageType
  body : String
  formatted_body : Option String
  format : Option String
  relates_to : Option RelatesTo
deriving DecidableEq, Repr

/-- `events.rs`: `ThirdPartyInvite`. -/
structure ThirdPartyInvite where
  display_name : String
deriving DecidableEq, Repr

/-- `events.rs`: `RoomMemberContent`. -/
structure RoomMemberContent where
  membership : MembershipState
  displayname : Option String
  avatar_url : Option String
  reason : Option String
  is_direct : Option Bool
  third_party_invite : Option ThirdPartyInvite
deriving DecidableEq, Repr

/-- `events.rs`: `RoomPredecessor`. -/
structure RoomPredecessor where
  room_id : String
  event_id : String
deriving DecidableEq, Repr

/-- `events.rs`: `RoomCreateContent`. -/
structure RoomCreateContent where
  creator : String
  m_federate : Option Bool
  room_version : Option String
  predecessor : Option RoomPredecessor
deriving DecidableEq, Repr

/-- `events.rs`: `RoomPowerLevelsContent` (maps as association lists). -/
structure RoomPowerLevelsContent where
  users : Option (List (String × Int))
  users_default : Option Int
  events : Option (List (String × Int))
  events_default : Option Int
  state_default : Option Int
  ban : Option Int
  kick : Option Int
  redact : Option Int
  invite : Option Int
deriving DecidableEq, Repr

/-- `events.rs`: `JoinRule`. -/
inductive JoinRule where
  | Public
  | Invite
  | Private
  | Knock
  | KnockRestricted
  | Restricted
deriving DecidableEq, Repr

/-- `events.rs`: `RoomJoinRulesContent`. -/
structure RoomJoinRulesContent where
  join_rule : JoinRule
deriving DecidableEq, Repr

/-- `events.rs`: `RoomNameContent`. -/
structure RoomNameContent where
  name : String
deriving DecidableEq, Repr

/-- `events.rs`: `RoomTopicContent`. -/
structure RoomTopicContent where
  topic : String
deriving DecidableEq, Repr

/-- `events.rs`: `CustomSupportContent`. -/
structure CustomSupportContent where
  request_type : String
  description : String
  priority : String
  user_id : String
  timestamp : Nat
deriving DecidableEq, Repr

/-- `events.rs`: `EventContent`. -/
inductive EventContent where
  | RoomMessage (c : RoomMessageContent)
  | RoomMember (c : RoomMemberContent)
  | RoomCreate (c : RoomCreateContent)
  | RoomPowerLevels (c : RoomPowerLevelsContent)
  | RoomJoinRules (c : RoomJoinRulesContent)
  | RoomName (c : RoomNameContent)
  | RoomTopic (c : RoomTopicContent)
  | CustomSupport (c : CustomSupportContent)
  | Raw (v : JsonValue)
deriving DecidableEq, Repr

/-- `events.rs`: `MatrixEvent`. -/
structure MatrixEvent where
  event_id : String
  event_type : EventType
  content : EventContent
  sender : String
  room_id : String
  origin_server_ts : Nat
  unsigned : Option JsonValue
  state_key : Option String
deriving DecidableEq, Repr

/-- `events.rs`: `MatrixEvent::new`; the fresh UUID (`uuid`) and the current
wall-clock time in milliseconds (`now`) are explicit parameters. -/
def MatrixEvent.new (event_type : EventType) (content : EventContent)
    (sender room_id : String) (uuid : String) (now : Nat) : MatrixEvent :=
  { event_id := "$" ++ uuid
    event_type := event_type
    content := content
    sender := sender
    room_id := room_id
    origin_server_ts := now
    unsigned := none
    state_key := none }

/-- `events.rs`: `MatrixEvent::with_state_key`. -/
def MatrixEvent.with_state_key (e : MatrixEvent) (state_key : String) : MatrixEvent :=
  { e with state_key := some state_key }

/-- `events.rs`: `MatrixEvent::is_state_event`. -/
def MatrixEvent.is_state_event (e : MatrixEvent) : Bool :=
  e.state_key.isSome

/-- `events.rs`: `EventValidationError`. -/
inductive EventValidationError where
  | EmptySender
  | EmptyRoomId
  | EmptyEventId
deriving DecidableEq, Repr

/-- The `thiserror` display strings of `EventValidationError`
(used by `StateError::InvalidEvent(e.to_string())`). -/
def EventValidationError.message : EventValidationError → String
  | .EmptySender => "Sender cannot be empty"
  | .EmptyRoomId => "Room ID cannot be empty"
  | .EmptyEventId => "Event ID cannot be empty"

/-- `events.rs`: `MatrixEvent::validate`. -/
def MatrixEvent.validate (e : MatrixEvent) : Except EventValidationError Unit :=
  if e.sender = "" then .error .EmptySender
  else if e.room_id = "" then .error .EmptyRoomId
  else if e.event_id = "" then .error .EmptyEventId
  else .ok ()

/-- `state.rs`: `StateError`. -/
inductive StateError where
  | RoomNotFound (s : String)
  | UserNotFound (s : String)
  | InsufficientPermissions
  | InvalidEvent (s : String)
  | StateConflict (s : String)
deriving DecidableEq, Repr

/-- `state.rs`: `PowerLevels`. -/
structure PowerLevels where
  users : Option (List (String × Int))
  users_default : Option Int
  events : Option (List (String × Int))
  events_default : Option Int
  state_default : Option Int
  ban : Option Int
  kick : Option Int
  redact : Option Int
  invite : Option Int
deriving DecidableEq, Repr

/-- `state.rs`: `RoomState`. -/
structure RoomState where
  room_id : String
  room_version : String
  state_events : List ((EventType × String) × MatrixEvent)
  members : List (String × MembershipState)
  power_levels : PowerLevels
  creator : String
  join_rules : Option String
  name : Option String
  topic : Option String
  avatar_url : Option String
  history_visibility : Option String
deriving DecidableEq, Repr

/-- `state.rs`: `RoomState::new`. -/
def RoomState.new (room_id creator room_version : String) : RoomState :=
  let power_levels : PowerLevels :=
    { users := some (alistInsert creator 100 [])
      users_default := some 0
      events := some []
      events_default := some 0
      state_default := some 50
      ban := some 50
      kick := some 50
      redact := some 50
      invite := some 50 }
  { room_id := room_id
    room_version := room_version
    state_events := []
    members := alistInsert creator MembershipState.Join []
    power_levels := power_levels
    creator := creator
    join_rules := some "invite"
    name := none
    topic := none
    avatar_url := none
    history_visibility := some "shared" }

/-- `state.rs`: `RoomState::get_user_power_level`. -/
def RoomState.get_user_power_level (s : RoomState) (user_id : String) : Int :=
  match s.power_levels.users with
  | none => 0
  | some users => (alistGet user_id users).getD 0

/-- `state.rs`: `RoomState::user_has_power_level`. -/
def RoomState.user_has_power_level (s : RoomState) (user_id : String)
    (required_level : Int) : Bool :=
  s.get_user_power_level user_id ≥ required_level

/-- `state.rs`: `RoomState::is_member`. -/
def RoomState.is_member (s : RoomState) (user_id : String) : Bool :=
  alistGet user_id s.members = some MembershipState.Join

/-- `state.rs`: `RoomState::is_admin`. -/
def RoomState.is_admin (s : RoomState) (user_id : String) : Bool :=
  s.user_has_power_level user_id 100

/-- `state.rs`: `RoomState::is_moderator`. -/
def RoomState.is_moderator (s : RoomState) (user_id : String) : Bool :=
  s.user_has_power_level user_id 50

/-- `state.rs`: `RoomState::add_state_event`. -/
def RoomState.add_state_event (s : RoomState) (event : MatrixEvent) :
    Except StateError RoomState :=
  match event.state_key with
  | none => .error (.InvalidEvent "State event missing state key")
  | some state_key =>
    match event.validate with
    | .error e => .error (.InvalidEvent e.message)
    | .ok _ =>
      if ¬ s.user_has_power_level event.sender 50 then
        .error .InsufficientPermissions
      else
        .ok { s with
              state_events :=
                alistInsert (event.event_type, state_key) event s.state_events }

/-- `state.rs`: `RoomState::process_member_event`. -/
def RoomState.process_member_event (s : RoomState) (event : MatrixEvent) :
    Except StateError RoomState :=
  match event.content with
  | .RoomMember content =>
    let user_id := event.sender
    match content.membership with
    | .Join => .ok { s with members := alistInsert user_id content.membership s.members }
    | .Leave => .ok { s with members := alistErase user_id s.members }
    | .Invite => .ok s
    | .Ban => .ok { s with members := alistErase user_id s.members }
    | .Knock => .ok s
  | _ => .ok s

/-- `state.rs`: `RoomSummary`. -/
structure RoomSummary where
  room_id : String
  name : Option String
  topic : Option String
  member_count : Nat
  join_rules : Option String
  history_visibility : Option String
deriving DecidableEq, Repr

/-- `state.rs`: `RoomState::get_summary`. -/
def RoomState.get_summary (s : RoomState) : RoomSummary :=
  { room_id := s.room_id
    name := s.name
    topic := s.topic
    member_count := s.members.length
    join_rules := s.join_rules
    history_visibility := s.history_visibility }

/-- The in-memory table of `InMemoryStateStore` (`rooms: HashMap<String, RoomState>`). -/
def StoreMap : Type := List (String × RoomState)

/-- `state.rs`: `InMemoryStateStore::get_room`. -/
def InMemoryStateStore.get_room (rooms : StoreMap) (room_id : String) :
    Except StateError (Option RoomState) :=
  .ok (alistGet room_id rooms)

/-- `state.rs`: `InMemoryStateStore::create_room` (unconditional insert). -/
def InMemoryStateStore.create_room (rooms : StoreMap) (room_state : RoomState) :
    Except StateError StoreMap :=
  .ok (alistInsert room_state.room_id room_state rooms)

/-- `state.rs`: `InMemoryStateStore::update_room`. -/
def InMemoryStateStore.update_room (rooms : StoreMap) (room_state : RoomState) :
    Except StateError StoreMap :=
  match alistGet room_state.room_id rooms with
  | none => .error (.RoomNotFound room_state.room_id)
  | some _ => .ok (alistInsert room_state.room_id room_state rooms)

/-- `state.rs`: `InMemoryStateStore::delete_room`. -/
def InMemoryStateStore.delete_room (rooms : StoreMap) (room_id : String) :
    Except StateError StoreMap :=
  match alistGet room_id rooms with
  | none => .error (.RoomNotFound room_id)
  | some _ => .ok (alistErase room_id rooms)

/-- `state.rs`: `InMemoryStateStore::room_exists`. -/
def InMemoryStateStore.room_exists (rooms : StoreMap) (room_id : String) :
    Except StateError Bool :=
  .ok (alistGet room_id rooms).isSome

/-- Stable insertion step for `insertionSortBy`. -/
def insertBy {α : Type} (le : α → α → Bool) (a : α) : List α → List α
  | [] => [a]
  | b :: l => if le a b then a :: b :: l else b :: insertBy le a l

/-- Stable insertion sort; models Rust's stable `Vec::sort_by_key` /
`sort_by` (the stable sorted permutation is unique, so any stable sort
agrees with this one). -/
def insertionSortBy {α : Type} (le : α → α → Bool) : List α → List α
  | [] => []
  | a :: l => insertBy le a (insertionSortBy le l)

/-- The sort key of `resolve_state_conflicts`:
`sorted_events.sort_by_key(|e| e.origin_server_ts)`. -/
def tsLe (a b : MatrixEvent) : Bool :=
  decide (a.origin_server_ts ≤ b.origin_server_ts)

/-- `state.rs`: `StateResolver::resolve_state_conflicts` — returns the state
events sorted (stably) by origin timestamp; `auth_events` is ignored. -/
def StateResolver.resolve_state_conflicts (auth_events state_events : List MatrixEvent) :
    Except StateError (List MatrixEvent) :=
  .ok (insertionSortBy tsLe state_events)

/-- `state.rs`: `StateResolver::validate_event_auth`. -/
def StateResolver.validate_event_auth (event : MatrixEvent)
    (auth_events : List MatrixEvent) (room_state : RoomState) :
    Except StateError Unit :=
  if ¬ room_state.is_member event.sender then
    .error .InsufficientPermissions
  else if event.is_state_event then
    let required_level := room_state.power_levels.state_default.getD 50
    if ¬ room_state.user_has_power_level event.sender required_level then
      .error .InsufficientPermissions
    else .ok ()
  else .ok ()

/-- `auth.rs`: `AuthenticatedUser`. -/
structure AuthenticatedUser where
  user_id : String
  access_token : String
  device_id : String
  subscription_active : Bool
  scopes : List String
deriving DecidableEq, Repr

/-- `auth.rs`: `AuthError`. -/
inductive AuthError where
  | InvalidToken (s : String)
  | TokenExpired
  | InsufficientPermissions (s : String)
  | UserNotFound (s : String)
  | OIDCError (s : String)
  | NetworkError (s : String)
deriving DecidableEq, Repr

/-- `auth.rs`: `AuthError::status_code`. -/
def AuthError.status_code : AuthError → Nat
  | .InvalidToken _ => 401
  | .TokenExpired => 401
  | .InsufficientPermissions _ => 403
  | .UserNotFound _ => 404
  | .OIDCError _ => 500
  | .NetworkError _ => 500

/-- `auth.rs`: `AuthError::error_code`. -/
def AuthError.error_code : AuthError → String
  | .InvalidToken _ => "M_UNKNOWN_TOKEN"
  | .TokenExpired => "M_UNKNOWN_TOKEN"
  | .InsufficientPermissions _ => "M_FORBIDDEN"
  | .UserNotFound _ => "M_NOT_FOUND"
  | .OIDCError _ => "M_UNKNOWN"
  | .NetworkError _ => "M_UNKNOWN"

/-- `room.rs`: `RoomError`. -/
inductive RoomError where
  | RoomNotFound (s : String)
  | UserNotInRoom (s : String)
  | InsufficientPermissions (s : String)
  | RoomAlreadyExists (s : String)
  | InvalidRoomConfig (s : String)
  | MessageTooLarge (n : Nat)
  | StateError (e : StateError)
  | AuthError (e : AuthError)
deriving DecidableEq, Repr

/-- `room.rs`: `RoomError::status_code`. -/
def RoomError.status_code : RoomError → Nat
  | .RoomNotFound _ => 404
  | .UserNotInRoom _ => 403
  | .InsufficientPermissions _ => 403
  | .RoomAlreadyExists _ => 409
  | .InvalidRoomConfig _ => 400
  | .MessageTooLarge _ => 413
  | .StateError _ => 500
  | .AuthError auth_err => auth_err.status_code

/-- `room.rs`: `RoomError::error_code`. -/
def RoomError.error_code : RoomError → String
  | .RoomNotFound _ => "M_NOT_FOUND"
  | .UserNotInRoom _ => "M_FORBIDDEN"
  | .InsufficientPermissions _ => "M_FORBIDDEN"
  | .RoomAlreadyExists _ => "M_ROOM_IN_USE"
  | .InvalidRoomConfig _ => "M_BAD_JSON"
  | .MessageTooLarge _ => "M_TOO_LARGE"
  | .StateError _ => "M_UNKNOWN"
  | .AuthError auth_err => auth_err.error_code

/-- `room.rs`: `StateEventConfig`. -/
structure StateEventConfig where
  event_type : String
  state_key : String
  content : JsonValue
deriving DecidableEq, Repr

/-- `room.rs`: `RoomPreset`. -/
inductive RoomPreset where
  | PrivateChat
  | PublicChat
  | TrustedPrivateChat
deriving DecidableEq, Repr

/-- `room.rs`: `RoomConfig`. -/
structure RoomConfig where
  name : Option String
  topic : Option String
  room_alias_name : Option String
  invite : List String
  room_version : Option String
  creation_content : Option JsonValue
  initial_state : List StateEventConfig
  preset : Option RoomPreset
  is_direct : Option Bool
  power_level_content_override : Option RoomPowerLevelsContent
  federate : Option Bool
deriving DecidableEq, Repr

/-- `room.rs`: `CreateRoomResponse`. -/
structure CreateRoomResponse where
  room_id : String
deriving DecidableEq, Repr

/-- `room.rs`: `JoinRoomRequest`. -/
structure JoinRoomRequest where
  room_id : String
  reason : Option String
deriving DecidableEq, Repr

/-- `room.rs`: `JoinRoomResponse`. -/
structure JoinRoomResponse where
  room_id : String
deriving DecidableEq, Repr

/-- `room.rs`: `LeaveRoomRequest`. -/
structure LeaveRoomRequest where
  room_id : String
  reason : Option String
deriving DecidableEq, Repr

/-- `room.rs`: `SendMessageRequest` (`relates_to` payload is opaque). -/
structure SendMessageRequest where
  room_id : String
  msgtype : MessageType
  body : String
  formatted_body : Option String
  format : Option String
  relates_to : Option JsonValue
deriving DecidableEq, Repr

/-- `room.rs`: `SendMessageResponse`. -/
structure SendMessageResponse where
  event_id : String
deriving DecidableEq, Repr

/-- `room.rs`: `GetMessagesRequest` (`from`/`to` are Lean keywords, hence
the trailing underscores). -/
structure GetMessagesRequest where
  room_id : String
  from_ : Option String
  to_ : Option String
  limit : Option Nat
deriving DecidableEq, Repr

/-- `room.rs`: `GetMessagesResponse` (`end` is a Lean keyword, hence `end_`). -/
structure GetMessagesResponse where
  chunk : List MatrixEvent
  start : String
  end_ : String
deriving DecidableEq, Repr

/-- Models Rust `String::len` — the UTF-8 byte length of the string — used by
`send_message`'s 65536-byte bound check on `request.body`. -/
def rustStrLen (s : String) : Nat :=
  (s.data.map Char.utf8Size).sum

/-- `room.rs`: `RoomHandler::generate_room_id` (always returns `Ok` in the
source; the fresh UUID is an explicit parameter). -/
def RoomHandler.generate_room_id (alias_opt : Option String) (uuid : String) : String :=
  match alias_opt with
  | some alias_name => "#" ++ alias_name ++ ":matrix.local"
  | none => "!" ++ uuid ++ ":matrix.local"

/-- The `for state_config in &config.initial_state` loop of
`RoomHandler::create_room`: each iteration builds a custom state event and
feeds it to `add_state_event`, propagating the first error. -/
def RoomHandler.apply_initial_state (room : RoomState) (sender room_id : String)
    (cfgs : List StateEventConfig) (uuids : Nat → String) (now k : Nat) :
    Except StateError RoomState :=
  match cfgs with
  | [] => .ok room
  | c :: rest =>
    let event := (MatrixEvent.new (.Custom c.event_type) (.Raw c.content)
      sender room_id (uuids k) now).with_state_key c.state_key
    match room.add_state_event event with
    | .error e => .error e
    | .ok room' => RoomHandler.apply_initial_state room' sender room_id rest uuids now (k + 1)

/-- `room.rs`: `RoomHandler::create_room`. The store threads through
explicitly; `uuids` supplies the UUID drawn by each `Uuid::new_v4()` call in
order (room id, then one per created event), `now` the wall-clock time. -/
def RoomHandler.create_room (store : StoreMap) (creator : AuthenticatedUser)
    (config : RoomConfig) (uuids : Nat → String) (now : Nat) :
    Except RoomError (StoreMap × CreateRoomResponse) :=
  let room_id := RoomHandler.generate_room_id config.room_alias_name (uuids 0)
  match InMemoryStateStore.room_exists store room_id with
  | .error e => .error (.StateError e)
  | .ok true => .error (.RoomAlreadyExists room_id)
  | .ok false =>
    let room_version := config.room_version.getD "9"
    let room_state0 := RoomState.new room_id creator.user_id room_version
    match RoomHandler.apply_initial_state room_state0 creator.user_id room_id
        config.initial_state uuids now 1 with
    | .error e => .error (.StateError e)
    | .ok room_state1 =>
      let afterName : Except StateError RoomState :=
        match config.name with
        | none => .ok room_state1
        | some name =>
          room_state1.add_state_event
            ((MatrixEvent.new .RoomName (.RoomName ⟨name⟩) creator.user_id room_id
              (uuids (1 + config.initial_state.length)) now).with_state_key "")
      match afterName with
      | .error e => .error (.StateError e)
      | .ok room_state2 =>
        let afterTopic : Except StateError RoomState :=
          match config.topic with
          | none => .ok room_state2
          | some topic =>
            room_state2.add_state_event
              ((MatrixEvent.new .RoomTopic (.RoomTopic ⟨topic⟩) creator.user_id room_id
                (uuids (2 + config.initial_state.length)) now).with_state_key "")
        match afterTopic with
        | .error e => .error (.StateError e)
        | .ok room_state3 =>
          let join_rule : String :=
            match config.preset with
            | some .PublicChat => "public"
            | some .PrivateChat => "invite"
            | some .TrustedPrivateChat => "invite"
            | none => "invite"
          let room_state4 :=
            { room_state3 with
              join_rules := some join_rule
              history_visibility := some "shared" }
          match InMemoryStateStore.create_room store room_state4 with
          | .error e => .error (.StateError e)
          | .ok store' => .ok (store', { room_id := room_id })

/-- `room.rs`: `RoomHandler::join_room`. -/
def RoomHandler.join_room (store : StoreMap) (user : AuthenticatedUser)
    (request : JoinRoomRequest) (uuid : String) (now : Nat) :
    Except RoomError (StoreMap × JoinRoomResponse) :=
  let room_id := request.room_id
  match InMemoryStateStore.get_room store room_id with
  | .error e => .error (.StateError e)
  | .ok none => .error (.RoomNotFound room_id)
  | .ok (some room_state) =>
    let join_rule := room_state.join_rules.getD "invite"
    let check : Except RoomError Unit :=
      if join_rule = "public" then .ok ()
      else if join_rule = "invite" then
        if ¬ room_state.is_admin user.user_id then
          .error (.InsufficientPermissions "Room requires invitation")
        else .ok ()
      else .error (.InsufficientPermissions ("Unknown join rule: " ++ join_rule))
    match check with
    | .error e => .error e
    | .ok _ =>
      let member_event := (MatrixEvent.new .RoomMember
        (.RoomMember
          { membership := .Join
            displayname := none
            avatar_url := none
            reason := request.reason
            is_direct := none
            third_party_invite := none })
        user.user_id room_id uuid now).with_state_key user.user_id
      match room_state.process_member_event member_event with
      | .error e => .error (.StateError e)
      | .ok room_state' =>
        match InMemoryStateStore.update_room store room_state' with
        | .error e => .error (.StateError e)
        | .ok store' => .ok (store', { room_id := room_id })

/-- `room.rs`: `RoomHandler::leave_room` (Rust returns `Ok(())`; the updated
store is the result here). -/
def RoomHandler.leave_room (store : StoreMap) (user : AuthenticatedUser)
    (request : LeaveRoomRequest) (uuid : String) (now : Nat) :
    Except RoomError StoreMap :=
  let room_id := request.room_id
  match InMemoryStateStore.get_room store room_id with
  | .error e => .error (.StateError e)
  | .ok none => .error (.RoomNotFound room_id)
  | .ok (some room_state) =>
    if ¬ room_state.is_member user.user_id then
      .error (.UserNotInRoom user.user_id)
    else
      let member_event := (MatrixEvent.new .RoomMember
        (.RoomMember
          { membership := .Leave
            displayname := none
            avatar_url := none
            reason := request.reason
            is_direct := none
            third_party_invite := none })
        user.user_id room_id uuid now).with_state_key user.user_id
      match room_state.process_member_event member_event with
      | .error e => .error (.StateError e)
      | .ok room_state' =>
        match InMemoryStateStore.update_room store room_state' with
        | .error e => .error (.StateError e)
        | .ok store' => .ok store'

/-- `room.rs`: `RoomHandler::send_message`. The source constructs the message
event, generates a fresh event id, and returns it without writing anything to
the state store (`// TODO: Store event in timeline`); the unchanged store is
returned alongside the response to make that explicit. `uuids 0` is the UUID
drawn inside `MatrixEvent::new`, `uuids 1` the one for the returned id. -/
def RoomHandler.send_message (store : StoreMap) (user : AuthenticatedUser)
    (request : SendMessageRequest) (uuids : Nat → String) (now : Nat) :
    Except RoomError (StoreMap × SendMessageResponse) :=
  let room_id := request.room_id
  match InMemoryStateStore.get_room store room_id with
  | .error e => .error (.StateError e)
  | .ok none => .error (.RoomNotFound room_id)
  | .ok (some room_state) =>
    if ¬ room_state.is_member user.user_id then
      .error (.UserNotInRoom user.user_id)
    else if rustStrLen request.body > 65536 then
      .error (.MessageTooLarge (rustStrLen request.body))
    else
      let message_content : RoomMessageContent :=
        { msgtype := request.msgtype
          body := request.body
          formatted_body := request.formatted_body
          format := request.format
          relates_to := none }
      let _event := MatrixEvent.new .RoomMessage (.RoomMessage message_content)
        user.user_id room_id (uuids 0) now
      let event_id := "$" ++ uuids 1
      .ok (store, { event_id := event_id })

/-- `room.rs`: `RoomHandler::get_messages` (returns an empty chunk:
`// TODO: Implement actual message retrieval from timeline`). -/
def RoomHandler.get_messages (store : StoreMap) (user : AuthenticatedUser)
    (request : GetMessagesRequest) : Except RoomError GetMessagesResponse :=
  let room_id := request.room_id
  match InMemoryStateStore.get_room store room_id with
  | .error e => .error (.StateError e)
  | .ok none => .error (.RoomNotFound room_id)
  | .ok (some room_state) =>
    if ¬ room_state.is_member user.user_id then
      .error (.UserNotInRoom user.user_id)
    else
      .ok { chunk := []
            start := request.from_.getD "0"
            end_ := request.to_.getD "0" }

/-- `room.rs`: `RoomHandler::get_room_summary` (the `serde_json::to_value`
step, which cannot fail on `RoomSummary`, is modelled as the identity). -/
def RoomHandler.get_room_summary (store : StoreMap) (user : AuthenticatedUser)
    (room_id : String) : Except RoomError RoomSummary :=
  match InMemoryStateStore.get_room store room_id with
  | .error e => .error (.StateError e)
  | .ok none => .error (.RoomNotFound room_id)
  | .ok (some room_state) =>
    if ¬ room_state.is_member user.user_id then
      .error (.UserNotInRoom user.user_id)
    else
      .ok room_state.get_summary

/-! Specification-side resolver order (for comparison with the code).
`specOrderLe` renders §4.4's candidate order word for word: sender's power
level (as supplied by a `power` assignment) descending, then origin
timestamp ascending, then event id lexicographic; `specResolve` orders a
candidate list by it, so its head is the specified winner. -/

/-- The §4.4 ordering as the spec words it: power descending, timestamp
ascending, event id lexicographic. -/
def specOrderLe (power : String → Int) (a b : MatrixEvent) : Bool :=
  if power a.sender = power b.sender then
    if a.origin_server_ts = b.origin_server_ts then
      decide (a.event_id ≤ b.event_id)
    else decide (a.origin_server_ts < b.origin_server_ts)
  else decide (power b.sender < power a.sender)

/-- Candidates ordered as §4.4 of the spec dictates; the head of the result
is the winner the spec designates. -/
def specResolve (power : String → Int) (candidates : List MatrixEvent) : List MatrixEvent :=
  insertionSortBy (specOrderLe power) candidates

/-! Concrete fixtures used by the counterexample/witness theorems below. -/

/-- A deterministic UUID supply for concrete runs. -/
def uuidSupply : Nat → String := fun n => "uuid" ++ toString n

/-- Concrete authenticated user `@alice:example.org`. -/
def aliceUser : AuthenticatedUser :=
  { user_id := "@alice:example.org"
    access_token := "tok"
    device_id := "dev"
    subscription_active := true
    scopes := [] }

/-- Concrete authenticated user `@bob:example.org`. -/
def bobUser : AuthenticatedUser := { aliceUser with user_id := "@bob:example.org" }

/-- Candidate whose sender has power 50 and the earlier timestamp. -/
def candLoEarly : MatrixEvent :=
  { event_id := "$a"
    event_type := .RoomName
    content := .RoomName ⟨"A"⟩
    sender := "@lo:example.org"
    room_id := "!room:example.org"
    origin_server_ts := 50
    unsigned := none
    state_key := some "" }

/-- Candidate whose sender has power 80 and the later timestamp. -/
def candHiLate : MatrixEvent :=
  { candLoEarly with
    event_id := "$b"
    sender := "@hi:example.org"
    origin_server_ts := 100
    content := .RoomName ⟨"B"⟩ }

/-- Power assignment for the resolver fixtures: `@hi` has 80, `@lo` has 50. -/
def candPower : String → Int :=
  fun u => if u = "@hi:example.org" then 80 else if u = "@lo:example.org" then 50 else 0

/-- Same slot and same timestamp as `candLoEarly`, different event id. -/
def candTie : MatrixEvent := { candLoEarly with event_id := "$c" }

/-- A room state in which `@bob:example.org` is banned. -/
def banRoom : RoomState :=
  { RoomState.new "!room:example.org" "@alice:example.org" "9" with
    members :=
      [("@alice:example.org", MembershipState.Join),
       ("@bob:example.org", MembershipState.Ban)] }

/-- A member event asking to transition `@bob:example.org` from `ban` to `join`. -/
def banJoinEvent : MatrixEvent :=
  (MatrixEvent.new .RoomMember
    (.RoomMember
      { membership := .Join
        displayname := none
        avatar_url := none
        reason := none
        is_direct := none
        third_party_invite := none })
    "@bob:example.org" "!room:example.org" "m1" 7).with_state_key "@bob:example.org"

/-- A room state in which `@bob:example.org` is a joined member at power 0
(the room's `events_default` is the `RoomState::new` default, 0). -/
def memberRoom : RoomState :=
  { RoomState.new "!room:example.org" "@alice:example.org" "9" with
    members :=
      [("@alice:example.org", MembershipState.Join),
       ("@bob:example.org", MembershipState.Join)] }

/-- An ordinary (non-administrative) state event sent by `@bob:example.org`. -/
def ordinaryStateEvent : MatrixEvent :=
  (MatrixEvent.new (.Custom "com.example.widget") (.Raw ⟨"w"⟩)
    "@bob:example.org" "!room:example.org" "m2" 7).with_state_key ""

/-- A store holding one freshly created room `!room:example.org`. -/
def oneRoomStore : StoreMap :=
  [("!room:example.org", RoomState.new "!room:example.org" "@alice:example.org" "9")]

/-- The same room id with a different room version, competing for the slot. -/
def rivalRoomState : RoomState := RoomState.new "!room:example.org" "@alice:example.org" "7"

/-- A room whose join rule is `knock` (neither `public` nor `invite`). -/
def knockRoom : RoomState :=
  { RoomState.new "!room:example.org" "@alice:example.org" "9" with
    join_rules := some "knock" }

/-- A store holding only the `knock` room. -/
def knockStore : StoreMap := [("!room:example.org", knockRoom)]

/-- The §8-scenario room configuration: name "General", topic "T", alias
`general`, public preset. -/
def generalConfig : RoomConfig :=
  { name := some "General"
    topic := some "T"
    room_alias_name := some "general"
    invite := []
    room_version := some "9"
    creation_content := none
    initial_state := []
    preset := some .PublicChat
    is_direct := some false
    power_level_content_override := none
    federate := some true }

/-- A 70000-byte message body (70000 ASCII characters). -/
def hugeBody : String := String.mk (List.replicate 70000 'a')

/-- The oversized send-message request of the §8 scenario. -/
def hugeRequest : SendMessageRequest :=
  { room_id := "!room:example.org"
    msgtype := .Text
    body := hugeBody
    formatted_body := none
    format := none
    relates_to := none }

/-- A small, in-bounds send-message request. -/
def smallRequest : SendMessageRequest :=
  { hugeRequest with body := "hi" }

/-- An ordinary state event sent by the room creator `@alice:example.org`. -/
def creatorStateEvent : MatrixEvent :=
  (MatrixEvent.new (.Custom "com.example.widget") (.Raw ⟨"w"⟩)
    "@alice:example.org" "!room:example.org" "m3" 7).with_state_key ""

/-! Helper lemmas about the association-list map operations. -/

theorem alistGet_insert_self {K V : Type} [DecidableEq K] (k : K) (v : V)
    (m : List (K × V)) : alistGet k (alistInsert k v m) = some v := by
  induction m with
  | nil => simp [alistGet, alistInsert]
  | cons p t ih =>
    obtain ⟨k', v'⟩ := p
    by_cases h : k' = k <;> simp [alistGet, alistInsert, h, ih]

theorem alistGet_insert_ne {K V : Type} [DecidableEq K] {k k' : K} (v : V)
    (m : List (K × V)) (h : k' ≠ k) :
    alistGet k' (alistInsert k v m) = alistGet k' m := by
  have h' : ¬ k = k' := fun hh => h hh.symm
  induction m with
  | nil => simp [alistGet, alistInsert, h']
  | cons p t ih =>
    obtain ⟨k'', v''⟩ := p
    by_cases h2 : k'' = k
    · subst h2
      simp [alistGet, alistInsert, h']
    · by_cases h3 : k'' = k' <;> simp [alistGet, alistInsert, h, h2, h3, ih]

theorem alistGet_erase_self {K V : Type} [DecidableEq K] (k : K)
    (m : List (K × V)) : alistGet k (alistErase k m) = none := by
  induction m with
  | nil => simp [alistGet, alistErase]
  | cons p t ih =>
    obtain ⟨k', v'⟩ := p
    by_cases h : k' = k <;> simp [alistGet, alistErase, h, ih]

/-! Helper lemmas about the stable insertion sort modelling `sort_by_key`. -/

theorem insertBy_perm {α : Type} (le : α → α → Bool) (a : α) (l : List α) :
    List.Perm (insertBy le a l) (a :: l) := by
  induction l with
  | nil => simp [insertBy]
  | cons b t ih =>
    by_cases h : le a b
    · simp [insertBy, h]
    · simp only [insertBy, h, if_neg]
      exact (ih.cons b).trans (List.Perm.swap a b t)

theorem insertionSortBy_perm {α : Type} (le : α → α → Bool) (l : List α) :
    List.Perm (insertionSortBy le l) l := by
  induction l with
  | nil => simp [insertionSortBy]
  | cons a t ih =>
    exact (insertBy_perm le a (insertionSortBy le t)).trans (ih.cons a)

theorem insertBy_pairwise {α : Type} (le : α → α → Bool)
    (total : ∀ a b : α, le a b = true ∨ le b a = true)
    (tr : ∀ a b c : α, le a b = true → le b c = true → le a c = true)
    (a : α) (l : List α) (h : l.Pairwise (fun x y => le x y = true)) :
    (insertBy le a l).Pairwise (fun x y => le x y = true) := by
  induction l with
  | nil => simp [insertBy]
  | cons b t ih =>
    rcases List.pairwise_cons.mp h with ⟨hb, ht⟩
    by_cases hab : le a b
    · simp only [insertBy, hab, if_pos]
      refine List.pairwise_cons.mpr ⟨?_, h⟩
      intro x hx
      rcases List.mem_cons.mp hx with rfl | hxt
      · exact hab
      · exact tr a b x hab (hb x hxt)
    · simp only [insertBy, hab, if_neg]
      refine List.pairwise_cons.mpr ⟨?_, ih ht⟩
      intro x hx
      rcases List.mem_cons.mp ((insertBy_perm le a t).mem_iff.mp hx) with rfl | hxt
      · rcases total x b with h1 | h1
        · exact absurd h1 (by simpa using hab)
        · exact h1
      · exact hb x hxt

theorem insertionSortBy_pairwise {α : Type} (le : α → α → Bool)
    (total : ∀ a b : α, le a b = true ∨ le b a = true)
    (tr : ∀ a b c : α, le a b = true → le b c = true → le a c = true)
    (l : List α) :
    (insertionSortBy le l).Pairwise (fun x y => le x y = true) := by
  induction l with
  | nil => simp [insertionSortBy]
  | cons a t ih => exact insertBy_pairwise le total tr a _ ih

theorem tsLe_total (a b : MatrixEvent) : tsLe a b = true ∨ tsLe b a = true := by
  simp only [tsLe, decide_eq_true_eq]
  omega

theorem tsLe_trans (a b c : MatrixEvent) (h1 : tsLe a b = true) (h2 : tsLe b c = true) :
    tsLe a c = true := by
  simp only [tsLe, decide_eq_true_eq] at h1 h2 ⊢
  omega

/-- Two sorted lists that are permutations of each other and whose timestamp
keys are pairwise distinct are equal. -/
theorem sorted_perm_distinct_ts_eq :
    ∀ (l1 l2 : List MatrixEvent), List.Perm l1 l2 →
    l1.Pairwise (fun x y => tsLe x y = true) →
    l2.Pairwise (fun x y => tsLe x y = true) →
    (l1.map MatrixEvent.origin_server_ts).Nodup →
    l1 = l2 := by
  intro l1
  induction l1 with
  | nil =>
    intro l2 hp _ _ _
    exact (List.Perm.nil_eq hp)
  | cons a t1 ih =>
    intro l2 hp h1 h2 hnd
    match l2 with
    | [] => exact absurd hp.symm (by simp)
    | b :: t2 =>
      rcases List.pairwise_cons.mp h1 with ⟨ha, ht1⟩
      rcases List.pairwise_cons.mp h2 with ⟨hb, ht2⟩
      rcases List.nodup_cons.mp hnd with ⟨hts, hndt⟩
      have hab : a = b := by
        rcases List.mem_cons.mp (hp.symm.subset (List.mem_cons_self b t2)) with h | hbt1
        · exact h.symm
        · rcases List.mem_cons.mp (hp.subset (List.mem_cons_self a t1)) with h | hat2
          · exact h
          · exfalso
            have e1 : tsLe a b = true := ha b hbt1
            have e2 : tsLe b a = true := hb a hat2
            simp only [tsLe, decide_eq_true_eq] at e1 e2
            exact hts (by
              have : a.origin_server_ts = b.origin_server_ts := le_antisymm e1 e2
              rw [this]
              exact List.mem_map_of_mem MatrixEvent.origin_server_ts hbt1)
      subst hab
      have := ih t2 (hp.cons_inv) ht1 ht2 hndt
      rw [this]

/-- Byte length of `n` repeated ASCII `'a'`s, for the oversized-message
fixtures. -/
theorem rustStrLen_replicate_a (n : Nat) :
    rustStrLen (String.mk (List.replicate n 'a')) = n := by
  have h1 : Char.utf8Size 'a' = 1 := rfl
  simp [rustStrLen, List.map_replicate, h1, List.sum_replicate]

/-- C1: the spec orders competing candidates by sender power descending,
then timestamp ascending, then event id; `resolve_state_conflicts` instead
sorts by origin timestamp alone. On candidates where the higher-powered
sender has the later timestamp, the code puts the power-50 candidate first
while the spec's order (rendered by `specResolve`) puts the power-80
candidate first. -/
theorem resolve_state_conflicts_orders_by_timestamp_not_power :
    StateResolver.resolve_state_conflicts [] [candHiLate, candLoEarly] =
      .ok [candLoEarly, candHiLate] ∧
    specResolve candPower [candHiLate, candLoEarly] = [candHiLate, candLoEarly] ∧
    candPower candHiLate.sender = 80 ∧
    candPower candLoEarly.sender = 50 ∧
    candLoEarly ≠ candHiLate := by
  refine ⟨rfl, rfl, by decide, by decide, by decide⟩

/-- C2 counterexample: with two candidates carrying identical origin
timestamps, the stable timestamp sort of `resolve_state_conflicts` keeps
the input order, so the two input permutations produce different winners
(different head events). -/
theorem resolve_state_conflicts_tied_ts_order_dependent :
    (StateResolver.resolve_state_conflicts [] [candLoEarly, candTie] =
      .ok [candLoEarly, candTie]) ∧
    (StateResolver.resolve_state_conflicts [] [candTie, candLoEarly] =
      .ok [candTie, candLoEarly]) ∧
    candTie.origin_server_ts = candLoEarly.origin_server_ts ∧
    candLoEarly ≠ candTie := by
  refine ⟨rfl, rfl, by decide, by decide⟩

/-- C2 (amended): `resolve_state_conflicts` is input-order independent
whenever the candidates carry pairwise-distinct origin timestamps — any two
permutations of the candidate list (under arbitrary `auth_events`, which are
ignored) produce the same output, hence the same winner. -/
theorem resolve_state_conflicts_deterministic_of_distinct_ts
    (a1 a2 : List MatrixEvent) (l1 l2 : List MatrixEvent)
    (hperm : List.Perm l1 l2)
    (hnd : (l1.map MatrixEvent.origin_server_ts).Nodup) :
    StateResolver.resolve_state_conflicts a1 l1 =
      StateResolver.resolve_state_conflicts a2 l2 := by
  unfold StateResolver.resolve_state_conflicts
  have hs1 := insertionSortBy_pairwise tsLe tsLe_total tsLe_trans l1
  have hs2 := insertionSortBy_pairwise tsLe tsLe_total tsLe_trans l2
  have hp : List.Perm (insertionSortBy tsLe l1) (insertionSortBy tsLe l2) :=
    ((insertionSortBy_perm tsLe l1).trans hperm).trans (insertionSortBy_perm tsLe l2).symm
  have hnd' : ((insertionSortBy tsLe l1).map MatrixEvent.origin_server_ts).Nodup :=
    (((insertionSortBy_perm tsLe l1).map MatrixEvent.origin_server_ts).nodup_iff).mpr hnd
  rw [sorted_perm_distinct_ts_eq _ _ hp hs1 hs2 hnd']

/-- C2 witness: the determinism theorem applied to the two orders of the
power-50/power-80 candidate pair, whose timestamps (50 and 100) are distinct. -/
theorem resolve_state_conflicts_deterministic_witness :
    StateResolver.resolve_state_conflicts [] [candLoEarly, candHiLate] =
      StateResolver.resolve_state_conflicts [] [candHiLate, candLoEarly] :=
  resolve_state_conflicts_deterministic_of_distinct_ts [] [] _ _
    (List.Perm.swap candHiLate candLoEarly []) (by decide)

/-- C3: creating a room with name "General" and topic "T" and then asking a
member (the creator) for the summary returns `name = none` and
`topic = none` — `create_room` records the supplied name and topic only as
state events and never writes the denormalized `name`/`topic` fields that
`get_summary` reads, so the round-trip loses both values. -/
theorem create_room_get_summary_drops_name_topic :
    ∃ st, RoomHandler.create_room [] aliceUser generalConfig uuidSupply 5 =
        .ok (st, { room_id := "#general:matrix.local" }) ∧
      RoomHandler.get_room_summary st aliceUser "#general:matrix.local" =
        .ok { room_id := "#general:matrix.local"
              name := none
              topic := none
              member_count := 1
              join_rules := some "public"
              history_visibility := some "shared" } ∧
      generalConfig.name = some "General" ∧
      generalConfig.topic = some "T" := by
  refine ⟨_, rfl, rfl, rfl, rfl⟩

/-- C4: `RoomState::new` gives the creator power level exactly 100 and the
named defaults `users_default = 0`, `state_default = 50` and
`ban = kick = redact = invite = 50`. -/
theorem roomState_new_creator_100_and_defaults (room_id creator room_version : String) :
    (RoomState.new room_id creator room_version).get_user_power_level creator = 100 ∧
    (RoomState.new room_id creator room_version).power_levels.users_default = some 0 ∧
    (RoomState.new room_id creator room_version).power_levels.state_default = some 50 ∧
    (RoomState.new room_id creator room_version).power_levels.ban = some 50 ∧
    (RoomState.new room_id creator room_version).power_levels.kick = some 50 ∧
    (RoomState.new room_id creator room_version).power_levels.redact = some 50 ∧
    (RoomState.new room_id creator room_version).power_levels.invite = some 50 := by
  refine ⟨?_, rfl, rfl, rfl, rfl, rfl, rfl⟩
  simp [RoomState.new, RoomState.get_user_power_level, alistGet, alistInsert]

/-- C5 counterexample: the transition (from = `ban`, event = `join`) is not
a row of the spec's transition table, yet `process_member_event` accepts it
and records the banned user as joined instead of returning an error. -/
theorem process_member_event_accepts_ban_to_join :
    banRoom.process_member_event banJoinEvent =
      .ok { banRoom with
            members :=
              [("@alice:example.org", MembershipState.Join),
               ("@bob:example.org", MembershipState.Join)] } ∧
    alistGet "@bob:example.org" banRoom.members = some MembershipState.Ban := by
  refine ⟨rfl, by decide⟩

/-- C5 (amended): `process_member_event` never rejects any membership event:
it returns `Ok` for every room state and event (join inserts the sender,
leave and ban remove the sender's entry, invite and knock change nothing);
no `InvalidTransition` error exists in the code. -/
theorem process_member_event_never_rejects (s : RoomState) (e : MatrixEvent) :
    ∃ s', s.process_member_event e = .ok s' := by
  unfold RoomState.process_member_event
  cases e.content with
  | RoomMember c =>
    obtain ⟨m, dn, au, rs, isd, tpi⟩ := c
    cases m <;> exact ⟨_, rfl⟩
  | RoomMessage c => exact ⟨s, rfl⟩
  | RoomCreate c => exact ⟨s, rfl⟩
  | RoomPowerLevels c => exact ⟨s, rfl⟩
  | RoomJoinRules c => exact ⟨s, rfl⟩
  | RoomName c => exact ⟨s, rfl⟩
  | RoomTopic c => exact ⟨s, rfl⟩
  | CustomSupport c => exact ⟨s, rfl⟩
  | Raw v => exact ⟨s, rfl⟩

/-- C6 counterexample: `@bob:example.org` is a joined member at power level
0 in a room whose `events_default` is 0 and whose `events` override map is
empty, yet `add_state_event` rejects his ordinary (non-administrative)
state event with `InsufficientPermissions`. -/
theorem add_state_event_rejects_power_zero_member :
    memberRoom.add_state_event ordinaryStateEvent = .error .InsufficientPermissions ∧
    memberRoom.is_member "@bob:example.org" = true ∧
    memberRoom.get_user_power_level "@bob:example.org" = 0 ∧
    memberRoom.power_levels.events_default = some 0 ∧
    memberRoom.power_levels.events = some [] := by
  refine ⟨rfl, by decide, by decide, rfl, rfl⟩

/-- C6 (amended): `add_state_event` authorizes every state event against the
hardcoded threshold 50 — the `power_levels.events` per-type override and
`events_default` are never consulted, and membership is not required: for any
event carrying a state key and passing `validate`, acceptance holds exactly
when the sender's power level is at least 50. -/
theorem add_state_event_ok_iff_power_ge_50 (s : RoomState) (e : MatrixEvent)
    (sk : String) (hsk : e.state_key = some sk) (hval : e.validate = .ok ()) :
    (∃ s', s.add_state_event e = .ok s') ↔ 50 ≤ s.get_user_power_level e.sender := by
  unfold RoomState.add_state_event
  rw [hsk, hval]
  by_cases h : (50 : Int) ≤ s.get_user_power_level e.sender
  · have hb : s.user_has_power_level e.sender 50 = true := by
      simp [RoomState.user_has_power_level, ge_iff_le, h]
    simp only [hb, not_true_eq_false, if_neg, not_false_eq_true, if_pos]
    exact ⟨fun _ => h, fun _ => ⟨_, rfl⟩⟩
  · have hb : s.user_has_power_level e.sender 50 = false := by
      simp [RoomState.user_has_power_level, ge_iff_le, h]
    simp only [hb, Bool.false_eq_true, not_false_eq_true, if_pos]
    constructor
    · rintro ⟨s', hs'⟩
      cases hs'
    · intro hle
      exact absurd hle h

/-- C6 witness: the acceptance criterion instantiated at the room creator
(power 100) adding an ordinary state event to a fresh room. -/
theorem add_state_event_ok_iff_power_ge_50_witness :
    (∃ s', (RoomState.new "!room:example.org" "@alice:example.org" "9").add_state_event
        creatorStateEvent = .ok s') ↔
      50 ≤ (RoomState.new "!room:example.org" "@alice:example.org" "9").get_user_power_level
        "@alice:example.org" :=
  add_state_event_ok_iff_power_ge_50 _ creatorStateEvent "" rfl rfl

/-- C7 counterexample: `InMemoryStateStore::create_room` on a store that
already holds `!room:example.org` returns `Ok` — not a conflict error — and
replaces the stored state with the new one. -/
theorem inMemory_create_room_overwrites_existing :
    InMemoryStateStore.create_room oneRoomStore rivalRoomState =
      .ok [("!room:example.org", rivalRoomState)] ∧
    alistGet "!room:example.org" oneRoomStore ≠ some rivalRoomState := by
  refine ⟨rfl, by decide⟩

/-- C7 (amended): `InMemoryStateStore::create_room` never fails; it is an
upsert: afterwards the created room id maps to the given state (overwriting
any previous occupant) and every other room id is untouched. Duplicate-room
protection lives only in `RoomHandler::create_room`'s `room_exists`
pre-check. -/
theorem inMemory_create_room_upsert_semantics (rooms : StoreMap) (rs : RoomState) :
    ∃ rooms', InMemoryStateStore.create_room rooms rs = .ok rooms' ∧
      alistGet rs.room_id rooms' = some rs ∧
      ∀ rid, rid ≠ rs.room_id → alistGet rid rooms' = alistGet rid rooms := by
  refine ⟨_, rfl, alistGet_insert_self rs.room_id rs rooms, ?_⟩
  intro rid h
  exact alistGet_insert_ne rs rooms h

/-- C7 witness: the upsert semantics instantiated at the one-room store and
its rival state. -/
theorem inMemory_create_room_upsert_semantics_witness :
    ∃ rooms', InMemoryStateStore.create_room oneRoomStore rivalRoomState = .ok rooms' ∧
      alistGet "!room:example.org" rooms' = some rivalRoomState ∧
      alistGet "!other:example.org" rooms' = alistGet "!other:example.org" oneRoomStore := by
  obtain ⟨r', h1, h2, h3⟩ := inMemory_create_room_upsert_semantics oneRoomStore rivalRoomState
  exact ⟨r', h1, h2, h3 "!other:example.org" (by decide)⟩

/-- C8: `leave_room` on an existing room rejects a caller who is not a
joined member with `UserNotInRoom` (status 403) rather than silently
succeeding; consequently, after a successful leave the same user's second
leave returns exactly that error. -/
theorem leave_room_nonmember_forbidden_and_second_leave_errors :
    (∀ (store : StoreMap) (u : AuthenticatedUser) (req : LeaveRoomRequest)
       (rs : RoomState) (uuid : String) (now : Nat),
      alistGet req.room_id store = some rs →
      rs.is_member u.user_id = false →
      RoomHandler.leave_room store u req uuid now =
        .error (.UserNotInRoom u.user_id)) ∧
    (∀ (store : StoreMap) (u : AuthenticatedUser) (req : LeaveRoomRequest)
       (rs : RoomState) (uuid : String) (now : Nat) (uuid' : String) (now' : Nat),
      alistGet req.room_id store = some rs →
      rs.room_id = req.room_id →
      rs.is_member u.user_id = true →
      ∃ store', RoomHandler.leave_room store u req uuid now = .ok store' ∧
        RoomHandler.leave_room store' u req uuid' now' =
          .error (.UserNotInRoom u.user_id)) := by
  constructor
  · intro store u req rs uuid now hget hmem
    simp [RoomHandler.leave_room, InMemoryStateStore.get_room, hget, hmem]
  · intro store u req rs uuid now uuid' now' hget hrid hmem
    refine ⟨alistInsert req.room_id
      { rs with members := alistErase u.user_id rs.members } store, ?_, ?_⟩
    · simp [RoomHandler.leave_room, InMemoryStateStore.get_room,
        InMemoryStateStore.update_room, RoomState.process_member_event,
        MatrixEvent.new, MatrixEvent.with_state_key, hget, hmem, hrid]
    · have hget' : alistGet req.room_id (alistInsert req.room_id
          { rs with members := alistErase u.user_id rs.members } store) =
          some { rs with members := alistErase u.user_id rs.members } :=
        alistGet_insert_self _ _ _
      have hmem' : RoomState.is_member
          { rs with members := alistErase u.user_id rs.members } u.user_id = false := by
        simp [RoomState.is_member, alistGet_erase_self]
      simp [RoomHandler.leave_room, InMemoryStateStore.get_room, hget', hmem']

/-- C8 witness: in the one-room store, non-member Bob's leave is rejected
with `UserNotInRoom`, and the creator's leave succeeds once and then fails
with `UserNotInRoom` on the second attempt. -/
theorem leave_room_scenario_witness :
    RoomHandler.leave_room oneRoomStore bobUser ⟨"!room:example.org", none⟩ "u1" 5 =
      .error (.UserNotInRoom "@bob:example.org") ∧
    ∃ store', RoomHandler.leave_room oneRoomStore aliceUser
        ⟨"!room:example.org", none⟩ "u1" 5 = .ok store' ∧
      RoomHandler.leave_room store' aliceUser ⟨"!room:example.org", none⟩ "u2" 6 =
        .error (.UserNotInRoom "@alice:example.org") := by
  constructor
  · exact leave_room_nonmember_forbidden_and_second_leave_errors.1
      oneRoomStore bobUser ⟨"!room:example.org", none⟩ _ "u1" 5 rfl (by decide)
  · exact leave_room_nonmember_forbidden_and_second_leave_errors.2
      oneRoomStore aliceUser ⟨"!room:example.org", none⟩ _ "u1" 5 "u2" 6 rfl rfl (by decide)

/-- C9 counterexample: joining an existing room whose join rule is `knock`
(neither `public` nor `invite`) surfaces `InsufficientPermissions` with
status 403 — not a validation error with status 400 — and an oversized
message surfaces `MessageTooLarge` with status 413, not 400. -/
theorem join_room_unknown_rule_status_403_not_400 :
    RoomHandler.join_room knockStore bobUser ⟨"!room:example.org", none⟩ "u1" 5 =
      .error (.InsufficientPermissions ("Unknown join rule: " ++ "knock")) ∧
    (RoomError.InsufficientPermissions ("Unknown join rule: " ++ "knock")).status_code = 403 ∧
    (RoomError.MessageTooLarge 70000).status_code = 413 ∧
    (403 : Nat) ≠ 400 ∧ (413 : Nat) ≠ 400 := by
  refine ⟨rfl, rfl, rfl, by decide, by decide⟩

/-- C9 (amended): an unknown join rule on `join_room` surfaces as
`InsufficientPermissions` ("Unknown join rule: …"), a Forbidden-class error
with status 403 and code `M_FORBIDDEN`; an oversized message body on
`send_message` surfaces as `MessageTooLarge` with status 413 and code
`M_TOO_LARGE`. Neither is classified as Validation/400
(`InvalidRoomConfig` is the only 400 in `RoomError::status_code`). -/
theorem join_unknown_rule_and_oversized_message_statuses :
    (∀ (store : StoreMap) (u : AuthenticatedUser) (req : JoinRoomRequest)
       (rs : RoomState) (jr : String) (uuid : String) (now : Nat),
      alistGet req.room_id store = some rs →
      rs.join_rules = some jr →
      jr ≠ "public" → jr ≠ "invite" →
      RoomHandler.join_room store u req uuid now =
        .error (.InsufficientPermissions ("Unknown join rule: " ++ jr)) ∧
      (RoomError.InsufficientPermissions ("Unknown join rule: " ++ jr)).status_code = 403 ∧
      (RoomError.InsufficientPermissions ("Unknown join rule: " ++ jr)).error_code =
        "M_FORBIDDEN") ∧
    (∀ (store : StoreMap) (u : AuthenticatedUser) (req : SendMessageRequest)
       (rs : RoomState) (uuids : Nat → String) (now : Nat),
      alistGet req.room_id store = some rs →
      rs.is_member u.user_id = true →
      65536 < rustStrLen req.body →
      RoomHandler.send_message store u req uuids now =
        .error (.MessageTooLarge (rustStrLen req.body)) ∧
      (RoomError.MessageTooLarge (rustStrLen req.body)).status_code = 413 ∧
      (RoomError.MessageTooLarge (rustStrLen req.body)).error_code = "M_TOO_LARGE") := by
  constructor
  · intro store u req rs jr uuid now hget hjr h1 h2
    refine ⟨?_, rfl, rfl⟩
    simp [RoomHandler.join_room, InMemoryStateStore.get_room, hget, hjr, h1, h2]
  · intro store u req rs uuids now hget hmem hbig
    refine ⟨?_, rfl, rfl⟩
    simp [RoomHandler.send_message, InMemoryStateStore.get_room, hget, hmem, hbig]

/-- C9 witness: the error taxonomy applied to the `knock` room and to a
70000-byte message body. -/
theorem join_unknown_rule_and_oversized_message_witness :
    RoomHandler.join_room knockStore bobUser ⟨"!room:example.org", none⟩ "u1" 5 =
      .error (.InsufficientPermissions ("Unknown join rule: " ++ "knock")) ∧
    RoomHandler.send_message oneRoomStore aliceUser hugeRequest uuidSupply 5 =
      .error (.MessageTooLarge 70000) := by
  have hbig : 65536 < rustStrLen hugeRequest.body := by
    have h := rustStrLen_replicate_a 70000
    change 65536 < rustStrLen (String.mk (List.replicate 70000 'a'))
    rw [h]
    decide
  constructor
  · exact (join_unknown_rule_and_oversized_message_statuses.1
      knockStore bobUser ⟨"!room:example.org", none⟩ knockRoom "knock" "u1" 5
      rfl rfl (by decide) (by decide)).1
  · have h := (join_unknown_rule_and_oversized_message_statuses.2
      oneRoomStore aliceUser hugeRequest _ uuidSupply 5 rfl (by decide) hbig).1
    have hlen : rustStrLen hugeRequest.body = 70000 := by
      have h70 := rustStrLen_replicate_a 70000
      change rustStrLen (String.mk (List.replicate 70000 'a')) = 70000
      exact h70
    rw [hlen] at h
    exact h

/-- C10: a successful `send_message` (joined member, body within the 65536
byte bound) leaves the state store exactly as it was, returning only a
freshly generated event id, and nothing is persisted: `get_messages` on
the room returns an empty chunk. -/
theorem send_message_frame_no_persistence
    (store : StoreMap) (u : AuthenticatedUser) (req : SendMessageRequest)
    (rs : RoomState) (uuids : Nat → String) (now : Nat)
    (hget : alistGet req.room_id store = some rs)
    (hmem : rs.is_member u.user_id = true)
    (hsize : rustStrLen req.body ≤ 65536) :
    RoomHandler.send_message store u req uuids now =
      .ok (store, { event_id := "$" ++ uuids 1 }) ∧
    ∀ f t lim, RoomHandler.get_messages store u
        { room_id := req.room_id, from_ := f, to_ := t, limit := lim } =
      .ok { chunk := [], start := f.getD "0", end_ := t.getD "0" } := by
  constructor
  · have hnb : ¬ rustStrLen req.body > 65536 := by omega
    simp [RoomHandler.send_message, InMemoryStateStore.get_room, hget, hmem, hnb]
  · intro f t lim
    simp [RoomHandler.get_messages, InMemoryStateStore.get_room, hget, hmem]

/-- C10 witness: the frame property applied to a small message from the
creator in the one-room store. -/
theorem send_message_frame_no_persistence_witness :
    RoomHandler.send_message oneRoomStore aliceUser smallRequest uuidSupply 5 =
      .ok (oneRoomStore, { event_id := "$" ++ uuidSupply 1 }) ∧
    RoomHandler.get_messages oneRoomStore aliceUser
        { room_id := "!room:example.org", from_ := none, to_ := none, limit := none } =
      .ok { chunk := [], start := "0", end_ := "0" } := by
  obtain ⟨h1, h2⟩ := send_message_frame_no_persistence oneRoomStore aliceUser
    smallRequest _ uuidSupply 5 rfl (by decide) (by decide)
  exact ⟨h1, h2 none none none⟩
